import Mathlib

/-!
Verification of the request-handling layer of a breast-cancer prediction
web service (`src/app.py`).  The service exposes a `/predict` POST handler
(`handle_inference`) that validates a JSON submission against the model's
required feature names and calls the model wrapper, and a `/fetch-samples`
GET handler (`provide_example_cases`) that samples one row per diagnosis
class from a CSV dataset.

The model wrapper (`BreastCancerModel`) and the dataset are external
collaborators; they are represented here by parameters (a `predict`
function and a read-in dataset).  JSON values are embedded as `JVal`,
Python floats as `PyNum` (exact rationals plus signed infinities and
NaN, so that `float("nan")` and its interaction with the `val < 0`
check are representable), and Python exceptions as explicit
`Except`/error constructors.
-/

namespace BreastCancerApp

/-- A parsed JSON value, as produced by Flask's `request.get_json()`.
Numbers are modelled as exact rationals. -/
inductive JVal where
  | null : JVal
  | bool (b : Bool) : JVal
  | num (q : ℚ) : JVal
  | str (s : String) : JVal
  | arr (l : List JVal) : JVal
  | obj (d : List (String × JVal)) : JVal

/-- A Python `float` value as produced by `float(...)`: a finite value
(kept exact as a rational, with no binary rounding), a signed infinity,
or NaN.  NaN matters for validation: `nan < 0` is false in Python, so a
NaN survives the negativity check. -/
inductive PyNum where
  | fin (q : ℚ) : PyNum
  | inf (neg : Bool) : PyNum
  | nan : PyNum
deriving DecidableEq, Repr

/-- Python `x < 0` on a float value: false for NaN and `+inf`, true for
`-inf`. -/
def pyLtZero : PyNum → Bool
  | .fin q => decide (q < 0)
  | .inf neg => neg
  | .nan => false

/-- Python `x >= 0` on a float value: false for NaN and `-inf`, true for
`+inf`. -/
def pyGeZero : PyNum → Bool
  | .fin q => decide (0 ≤ q)
  | .inf neg => !neg
  | .nan => false

/-- Unary minus on a Python float value (NaN stays NaN). -/
def pyNegate : PyNum → PyNum
  | .fin q => .fin (-q)
  | .inf neg => .inf (!neg)
  | .nan => .nan

/-- Numeric value of a list of decimal digit characters, most significant
first (helper for the decimal-string model of Python `float`). -/
def digitsVal (l : List Char) : ℕ :=
  l.foldl (fun n c => 10 * n + (c.toNat - 48)) 0

/-- A character allowed inside a Python digit group: a decimal digit or
an underscore separator. -/
def isGroupChar (c : Char) : Bool :=
  c.isDigit || c = '_'

/-- No two adjacent underscores in the list. -/
def noDoubleUnderscore : List Char → Bool
  | [] => true
  | [_] => true
  | a :: b :: rest => !(a = '_' && b = '_') && noDoubleUnderscore (b :: rest)

/-- A valid Python digit group (`digit (["_"] digit)*`): nonempty,
starts and ends with a digit, single underscores only between digits
(the characters are digits or underscores by construction). -/
def validGroup (l : List Char) : Bool :=
  (match l.head? with
    | some c => c.isDigit
    | none => false) &&
  (match l.getLast? with
    | some c => c.isDigit
    | none => false) &&
  noDoubleUnderscore l

/-- Numeric value of a digit group, ignoring underscore separators. -/
def groupVal (l : List Char) : ℕ :=
  digitsVal (l.filter Char.isDigit)

/-- Number of digits in a digit group (underscores excluded). -/
def groupDigits (l : List Char) : ℕ :=
  (l.filter Char.isDigit).length

/-- Strip leading and trailing whitespace, as Python `float` does to its
string argument. -/
def stripWs (l : List Char) : List Char :=
  ((l.dropWhile Char.isWhitespace).reverse.dropWhile Char.isWhitespace).reverse

/-- Character code with ASCII upper-case letters folded to lower case
(for the case-insensitive `inf`/`nan` keywords). -/
def lowCode (c : Char) : ℕ :=
  if 65 ≤ c.toNat ∧ c.toNat ≤ 90 then c.toNat + 32 else c.toNat

/-- Case-insensitive comparison of the input against a lower-case
keyword. -/
def matchesKeyword (l : List Char) (kw : List Char) : Bool :=
  l.map lowCode == kw.map Char.toNat

/-- Models the decimal part of Python `float(s)` after the optional
sign: a digit group with an optional fractional digit group (at least
one of the two nonempty), then an optional exponent part whose digit
group is nonempty; digit groups may contain single underscores between
digits.  The value is exact (no binary rounding, and a huge exponent
yields a huge rational rather than overflowing to infinity). -/
def parseDecimal (l : List Char) : Option ℚ :=
  let ip := l.takeWhile isGroupChar
  let rest1 := l.dropWhile isGroupChar
  let ipOk := ip.isEmpty || validGroup ip
  let core : Option (ℚ × List Char) :=
    match rest1 with
    | '.' :: r2 =>
        let fp := r2.takeWhile isGroupChar
        let rest2 := r2.dropWhile isGroupChar
        if (ip.isEmpty && fp.isEmpty) || !ipOk || !(fp.isEmpty || validGroup fp) then none
        else some ((groupVal ip : ℚ) + (groupVal fp : ℚ) / (10 : ℚ) ^ groupDigits fp, rest2)
    | _ =>
        if ip.isEmpty || !ipOk then none else some ((groupVal ip : ℚ), rest1)
  match core with
  | none => none
  | some (mant, rest) =>
    match rest with
    | [] => some mant
    | e :: r3 =>
      if e = 'e' ∨ e = 'E' then
        let signed : Bool × List Char :=
          match r3 with
          | '+' :: r4 => (true, r4)
          | '-' :: r4 => (false, r4)
          | r4 => (true, r4)
        if signed.2.isEmpty ∨ ¬ signed.2.all isGroupChar ∨ ¬ validGroup signed.2 then none
        else if signed.1 then some (mant * (10 : ℚ) ^ groupVal signed.2)
        else some (mant / (10 : ℚ) ^ groupVal signed.2)
      else none

/-- Models Python `float(s)` after the optional sign: the
case-insensitive keywords `inf`, `infinity` and `nan`, or a decimal
literal. -/
def parseUnsignedPy (l : List Char) : Option PyNum :=
  if matchesKeyword l ['i', 'n', 'f'] ||
      matchesKeyword l ['i', 'n', 'f', 'i', 'n', 'i', 't', 'y'] then
    some (.inf false)
  else if matchesKeyword l ['n', 'a', 'n'] then
    some .nan
  else
    (parseDecimal l).map PyNum.fin

/-- Models Python `float(s)` for a string `s`: strip surrounding
whitespace, optional sign, then keywords (`inf`/`infinity`/`nan`,
case-insensitive) or a decimal literal with optional underscore
separators. -/
def parseFloat (s : String) : Option PyNum :=
  let l := stripWs s.data
  match l with
  | '+' :: rest => parseUnsignedPy rest
  | '-' :: rest => (parseUnsignedPy rest).map pyNegate
  | _ => parseUnsignedPy l

/-- Models Python `float(v)` on a parsed JSON value: numbers convert
exactly, booleans to 0/1, strings by `float`-string parsing (including
`nan` and `inf`); `None`, lists and dicts raise `TypeError` (here:
`none`). -/
def pyFloat : JVal → Option PyNum
  | .num q => some (.fin q)
  | .bool b => some (.fin (if b then 1 else 0))
  | .str s => parseFloat s
  | _ => none

/-- Python `==` between a JSON value and a string: only equal strings
compare equal. -/
def jvalEqStr : JVal → String → Bool
  | .str s, t => s == t
  | _, _ => false

/-- Models the Python membership test `field in data_input` for each JSON
value shape: key lookup on a dict, element equality on a list, substring
test on a string; `None`, numbers and booleans raise `TypeError`
(returned as `.error` with the exception text). -/
def pyContains (body : JVal) (field : String) : Except String Bool :=
  match body with
  | .obj d => .ok (d.lookup field).isSome
  | .arr l => .ok (l.any (fun v => jvalEqStr v field))
  | .str s => .ok (decide (List.IsInfix field.data s.data))
  | .null => .error "argument of type NoneType is not iterable"
  | .num _ => .error "argument of type float is not iterable"
  | .bool _ => .error "argument of type bool is not iterable"

/-- Models `float(data_input[field])` as evaluated inside the inner
`try` of `handle_inference`: on a dict it looks the key up and converts;
indexing a string or list with a string key raises `TypeError`, which the
inner `except (ValueError, TypeError)` catches — so those cases are
`none` (invalid) like any failed conversion. -/
def itemAsFloat (body : JVal) (field : String) : Option PyNum :=
  match body with
  | .obj d =>
    match d.lookup field with
    | some v => pyFloat v
    | none => none
  | _ => none

/-- Outcome of the validation loop of `handle_inference`: an uncaught
exception (propagating to the outer handler), an early `400` return with
its message, or the fully validated metrics in iteration order. -/
inductive ValidationStep where
  | exc (e : String) : ValidationStep
  | badRequest (message : String) : ValidationStep
  | ok (metrics : List (String × PyNum)) : ValidationStep
deriving DecidableEq, Repr

/-- The validation loop of `handle_inference`: for each required feature
name in order, test membership (may raise), return
`400 "Missing: <field>"` if absent, convert with `float` and reject
`val < 0` via `400 "Invalid numeric data: <field>"` (a NaN value passes,
since `nan < 0` is false in Python), else record the value and
continue. -/
def validateFields (body : JVal) : List String → ValidationStep
  | [] => .ok []
  | f :: rest =>
    match pyContains body f with
    | .error e => .exc e
    | .ok false => .badRequest ("Missing: " ++ f)
    | .ok true =>
      match itemAsFloat body f with
      | none => .badRequest ("Invalid numeric data: " ++ f)
      | some v =>
        if pyLtZero v then .badRequest ("Invalid numeric data: " ++ f)
        else
          match validateFields body rest with
          | .ok m => .ok ((f, v) :: m)
          | r => r

/-- Round half to even to an integer (Python's `round` tie-breaking),
on exact rationals. -/
def roundHalfEven (x : ℚ) : ℤ :=
  if x - (x.floor : ℚ) < 1 / 2 then x.floor
  else if 1 / 2 < x - (x.floor : ℚ) then x.floor + 1
  else if x.floor % 2 = 0 then x.floor else x.floor + 1

/-- Models Python `round(x, 2)`: round to two decimal places, ties to
even, on exact rationals. -/
def pyRound2 (x : ℚ) : ℚ :=
  (roundHalfEven (x * 100) : ℚ) / 100

/-- The `output` object of a successful `/predict` response. -/
structure SuccessOutput where
  label : String
  is_benign : Bool
  confidence : ℚ
  description : String
  disclaimer : String
deriving DecidableEq, Repr

/-- A `/predict` response: HTTP 200 with the success body, HTTP 400 with
`{success: false, message}`, or HTTP 500 with `{status: error, details}`. -/
inductive PredictResponse where
  | success (output : SuccessOutput) : PredictResponse
  | validationError (message : String) : PredictResponse
  | serverError (details : String) : PredictResponse
deriving DecidableEq, Repr

/-- HTTP status code of a `/predict` response. -/
def statusCode : PredictResponse → ℕ
  | .success _ => 200
  | .validationError _ => 400
  | .serverError _ => 500

/-- The fixed disclaimer string of a successful response. -/
def disclaimerText : String :=
  "For academic purposes only. Seek medical advice for diagnosis."

/-- The `handle_inference` route handler for `/predict`, parameterised by
the model's required feature names and by the external model wrapper's
`predict` (which may itself raise, modelled as `.error`).  The outer
`except Exception` turns any uncaught exception into a 500 response with
the exception's text. -/
def handleInference (featureNames : List String)
    (predict : List (String × PyNum) → Except String (ℤ × ℚ))
    (body : JVal) : PredictResponse :=
  match validateFields body featureNames with
  | .exc e => .serverError e
  | .badRequest msg => .validationError msg
  | .ok metrics =>
    match predict metrics with
    | .error e => .serverError e
    | .ok (cls, probability) =>
      let isHealthy : Bool := cls == 1
      let score := if isHealthy then probability else 1 - probability
      .success
        { label := if isHealthy then "Benign" else "Malignant"
          is_benign := isHealthy
          confidence := pyRound2 (score * 100)
          description :=
            if isHealthy then "Analysis complete: The tumor is likely BENIGN."
            else "Analysis complete: The tumor is likely MALIGNANT."
          disclaimer := disclaimerText }

/-- A dataset row, as a mapping from column name to numeric value. -/
abbrev Row := List (String × ℚ)

/-- The rows of the dataset whose `diagnosis` column equals `d`
(pandas `dataset[dataset['diagnosis'] == d]`). -/
def rowsWithDiagnosis (ds : List Row) (d : ℚ) : List Row :=
  ds.filter (fun r => r.lookup "diagnosis" == some d)

/-- Dropping the `diagnosis` column from a row
(`.drop(columns=['diagnosis'])` on the sampled frame). -/
def dropDiagnosis (r : Row) : Row :=
  r.filter (fun p => p.1 ≠ "diagnosis")

/-- A `/fetch-samples` response: `{success: true, payload: {benign_case,
malignant_case}}` or `{success: false, error}`. -/
inductive SamplesResponse where
  | success (benign_case malignant_case : Row) : SamplesResponse
  | failure (error : String) : SamplesResponse
deriving DecidableEq, Repr

/-- Models pandas `.sample(n=1).iloc[0]` on a filtered subset: any row of
a non-empty subset may be returned (the random draw is the index
parameter `i`, reduced modulo the length); an empty subset raises
`ValueError`. -/
def sampleOne (rows : List Row) (i : ℕ) : Except String Row :=
  if h : rows.length = 0 then
    .error "Cannot take a larger sample than population"
  else
    .ok (rows.get ⟨i % rows.length, Nat.mod_lt _ (Nat.pos_of_ne_zero h)⟩)

/-- The `provide_example_cases` route handler for `/fetch-samples`:
read the CSV (which may fail, modelled as the `readData` parameter),
sample one benign (`diagnosis = 1`) and one malignant (`diagnosis = 0`)
row, strip the `diagnosis` column from each, and return both; any raised
error becomes a `{success: false, error}` body. -/
def provideExampleCases (readData : Except String (List Row))
    (i j : ℕ) : SamplesResponse :=
  match readData with
  | .error e => .failure e
  | .ok dataset =>
    match sampleOne (rowsWithDiagnosis dataset 1) i with
    | .error e => .failure e
    | .ok b =>
      match sampleOne (rowsWithDiagnosis dataset 0) j with
      | .error e => .failure e
      | .ok m => .success (dropDiagnosis b) (dropDiagnosis m)

/-- A present field value that converts to a float not less than zero,
i.e. one the validation loop accepts (this includes NaN, for which
`val < 0` is false). -/
def fieldValid (d : List (String × JVal)) (f : String) : Bool :=
  match d.lookup f with
  | some v =>
    match pyFloat v with
    | some n => !pyLtZero n
    | none => false
  | none => false

/-- The `FeatureVector` invariant of the spec: every required feature
name is present in the vector, and every value in it is ≥ 0 (in
Python's comparison sense — false for NaN). -/
def FeatureVectorInv (featureNames : List String) (v : List (String × PyNum)) : Prop :=
  (∀ f ∈ featureNames, (v.lookup f).isSome) ∧ (∀ p ∈ v, pyGeZero p.2 = true)

/-- The invariant the code actually establishes: every required feature
name is present, and every value passed the `val < 0` check — it is a
non-negative number, `+inf`, or NaN. -/
def FeatureVectorNotNeg (featureNames : List String) (v : List (String × PyNum)) : Prop :=
  (∀ f ∈ featureNames, (v.lookup f).isSome) ∧ (∀ p ∈ v, pyLtZero p.2 = false)

/-! ### Lemmas about half-to-even rounding -/

theorem rat_floor_eq_intFloor (x : ℚ) : x.floor = ⌊x⌋ := by
  rw [Rat.floor_def', Rat.floor_def]

theorem roundHalfEven_nonneg {x : ℚ} (h : 0 ≤ x) : 0 ≤ roundHalfEven x := by
  have hf : 0 ≤ ⌊x⌋ := Int.floor_nonneg.2 h
  unfold roundHalfEven
  rw [rat_floor_eq_intFloor]
  split
  · exact hf
  · split
    · omega
    · split <;> omega

theorem roundHalfEven_le {x : ℚ} {B : ℤ} (h : x ≤ (B : ℚ)) : roundHalfEven x ≤ B := by
  have hfB : ⌊x⌋ ≤ B := by
    have h1 : ⌊x⌋ ≤ ⌊(B : ℚ)⌋ := Int.floor_le_floor h
    simpa using h1
  unfold roundHalfEven
  rw [rat_floor_eq_intFloor]
  split
  · exact hfB
  · have hlt : (⌊x⌋ : ℚ) < x := by
      rename_i hcond
      push_neg at hcond
      have hfl : (⌊x⌋ : ℚ) ≤ x := Int.floor_le x
      nlinarith
    have hltB : ⌊x⌋ < B := by
      have : (⌊x⌋ : ℚ) < (B : ℚ) := lt_of_lt_of_le hlt h
      exact_mod_cast this
    split
    · omega
    · split <;> omega

theorem pyRound2_bounds {y : ℚ} (h0 : 0 ≤ y) (h1 : y ≤ 100) :
    0 ≤ pyRound2 y ∧ pyRound2 y ≤ 100 := by
  have h0x : 0 ≤ y * 100 := by nlinarith
  have h1x : y * 100 ≤ ((10000 : ℤ) : ℚ) := by push_cast; nlinarith
  have r0 := roundHalfEven_nonneg h0x
  have r1 := roundHalfEven_le h1x
  unfold pyRound2
  constructor
  · apply div_nonneg _ (by norm_num)
    exact_mod_cast r0
  · rw [div_le_iff₀ (by norm_num : (0 : ℚ) < 100)]
    have h2 : (roundHalfEven (y * 100) : ℚ) ≤ ((10000 : ℤ) : ℚ) := by exact_mod_cast r1
    push_cast at h2
    linarith

/-! ### Structural lemmas about the validation loop -/

theorem validateFields_cons_missing {d : List (String × JVal)} {f : String}
    (h : d.lookup f = none) (rest : List String) :
    validateFields (.obj d) (f :: rest) = .badRequest ("Missing: " ++ f) := by
  simp [validateFields, pyContains, h]

theorem validateFields_cons_invalid {d : List (String × JVal)} {f : String} {v : JVal}
    (h : d.lookup f = some v) (hv : pyFloat v = none) (rest : List String) :
    validateFields (.obj d) (f :: rest) = .badRequest ("Invalid numeric data: " ++ f) := by
  simp [validateFields, pyContains, itemAsFloat, h, hv]

theorem validateFields_cons_negative {d : List (String × JVal)} {f : String} {v : JVal}
    {n : PyNum} (h : d.lookup f = some v) (hv : pyFloat v = some n)
    (hq : pyLtZero n = true) (rest : List String) :
    validateFields (.obj d) (f :: rest) = .badRequest ("Invalid numeric data: " ++ f) := by
  simp [validateFields, pyContains, itemAsFloat, h, hv, hq]

theorem validateFields_cons_valid {d : List (String × JVal)} {f : String} {v : JVal}
    {n : PyNum} (h : d.lookup f = some v) (hv : pyFloat v = some n)
    (hq : pyLtZero n = false) (rest : List String) :
    validateFields (.obj d) (f :: rest) =
      match validateFields (.obj d) rest with
      | .ok m => .ok ((f, n) :: m)
      | r => r := by
  simp [validateFields, pyContains, itemAsFloat, h, hv, hq]

theorem fieldValid_eq_true_iff {d : List (String × JVal)} {f : String} :
    fieldValid d f = true ↔
      ∃ v n, d.lookup f = some v ∧ pyFloat v = some n ∧ pyLtZero n = false := by
  unfold fieldValid
  cases h : d.lookup f with
  | none => simp
  | some v =>
    cases hv : pyFloat v with
    | none => simp [hv]
    | some n => simp [hv]

theorem validateFields_cons_of_fieldValid {d : List (String × JVal)} {g : String}
    (h : fieldValid d g = true) (rest : List String) :
    ∃ n, pyLtZero n = false ∧ validateFields (.obj d) (g :: rest) =
      match validateFields (.obj d) rest with
      | .ok m => .ok ((g, n) :: m)
      | r => r := by
  obtain ⟨v, n, hl, hf, hq⟩ := fieldValid_eq_true_iff.1 h
  exact ⟨n, hq, validateFields_cons_valid hl hf hq rest⟩

theorem validateFields_append_valid_badRequest {d : List (String × JVal)}
    {pre rest : List String} {msg : String}
    (hpre : ∀ g ∈ pre, fieldValid d g = true)
    (h : validateFields (.obj d) rest = .badRequest msg) :
    validateFields (.obj d) (pre ++ rest) = .badRequest msg := by
  induction pre with
  | nil => simpa using h
  | cons g pre ih =>
    have hg : fieldValid d g = true := hpre g (by simp)
    have hrec := ih (fun x hx => hpre x (by simp [hx]))
    obtain ⟨q, hq, hstep⟩ := validateFields_cons_of_fieldValid hg (pre ++ rest)
    rw [List.cons_append, hstep, hrec]

theorem validateFields_badRequest_of_invalid {d : List (String × JVal)} {fns : List String}
    (h : ∃ f ∈ fns, fieldValid d f = false) :
    ∃ msg, validateFields (.obj d) fns = .badRequest msg := by
  induction fns with
  | nil => simp at h
  | cons g rest ih =>
    by_cases hg : fieldValid d g = true
    · have hrest : ∃ f ∈ rest, fieldValid d f = false := by
        obtain ⟨f, hf, hfv⟩ := h
        rcases List.mem_cons.1 hf with rfl | hfr
        · rw [hg] at hfv; cases hfv
        · exact ⟨f, hfr, hfv⟩
      obtain ⟨msg, hmsg⟩ := ih hrest
      obtain ⟨q, hq, hstep⟩ := validateFields_cons_of_fieldValid hg rest
      exact ⟨msg, by rw [hstep, hmsg]⟩
    · cases hl : d.lookup g with
      | none => exact ⟨_, validateFields_cons_missing hl rest⟩
      | some v =>
        cases hv : pyFloat v with
        | none => exact ⟨_, validateFields_cons_invalid hl hv rest⟩
        | some n =>
          have hneg : pyLtZero n = true := by
            by_contra hge
            simp only [Bool.not_eq_true] at hge
            exact hg (fieldValid_eq_true_iff.2 ⟨v, n, hl, hv, hge⟩)
          exact ⟨_, validateFields_cons_negative hl hv hneg rest⟩

theorem validateFields_ok_notNeg {body : JVal} {fns : List String}
    {m : List (String × PyNum)}
    (h : validateFields body fns = .ok m) : FeatureVectorNotNeg fns m := by
  induction fns generalizing m with
  | nil =>
    simp [validateFields] at h
    subst h
    exact ⟨by simp, by simp⟩
  | cons f rest ih =>
    unfold validateFields at h
    cases hc : pyContains body f with
    | error e => rw [hc] at h; cases h
    | ok present =>
      rw [hc] at h
      cases present with
      | false => cases h
      | true =>
        dsimp only at h
        cases hi : itemAsFloat body f with
        | none => rw [hi] at h; cases h
        | some v =>
          rw [hi] at h
          dsimp only at h
          by_cases hneg : pyLtZero v = true
          · rw [if_pos hneg] at h; cases h
          · rw [if_neg hneg] at h
            cases hr : validateFields body rest with
            | exc e => rw [hr] at h; cases h
            | badRequest msg => rw [hr] at h; cases h
            | ok m' =>
              rw [hr] at h
              cases h
              obtain ⟨ihp, ihv⟩ := ih hr
              constructor
              · intro g hg
                rcases List.mem_cons.1 hg with rfl | hgr
                · simp [List.lookup]
                · by_cases hgf : g == f
                  · simp [List.lookup, hgf]
                  · simp only [List.lookup, hgf]
                    exact ihp g hgr
              · intro p hp
                rcases List.mem_cons.1 hp with rfl | hpr
                · simpa using hneg
                · exact ihv p hpr

theorem validateFields_ok_keys {body : JVal} {fns : List String}
    {m : List (String × PyNum)}
    (h : validateFields body fns = .ok m) : m.map Prod.fst = fns := by
  induction fns generalizing m with
  | nil =>
    simp [validateFields] at h
    subst h
    rfl
  | cons f rest ih =>
    unfold validateFields at h
    cases hc : pyContains body f with
    | error e => rw [hc] at h; cases h
    | ok present =>
      rw [hc] at h
      cases present with
      | false => cases h
      | true =>
        dsimp only at h
        cases hi : itemAsFloat body f with
        | none => rw [hi] at h; cases h
        | some v =>
          rw [hi] at h
          dsimp only at h
          by_cases hneg : pyLtZero v = true
          · rw [if_pos hneg] at h; cases h
          · rw [if_neg hneg] at h
            cases hr : validateFields body rest with
            | exc e => rw [hr] at h; cases h
            | badRequest msg => rw [hr] at h; cases h
            | ok m' =>
              rw [hr] at h
              cases h
              simpa using ih hr

theorem fieldValid_eq_false_of_invalid {d : List (String × JVal)} {f : String} {v : JVal}
    (hl : d.lookup f = some v)
    (hv : pyFloat v = none ∨ ∃ n, pyFloat v = some n ∧ pyLtZero n = true) :
    fieldValid d f = false := by
  unfold fieldValid
  rw [hl]
  rcases hv with hn | ⟨n, hq, hneg⟩
  · simp [hn]
  · simp [hq, hneg]

/-! ### The claims -/

/-- C1: for a fully valid submission to `/predict` (the validation loop
accepts every required field, producing metrics `m`), if the model
wrapper returns class indicator 1 with probability `p` the response is
the success body with label "Benign", `is_benign = true` and confidence
`round(p * 100, 2)`; if it returns class indicator 0 with probability
`p`, the response has label "Malignant", `is_benign = false` and
confidence `round((1 - p) * 100, 2)`. -/
theorem C1_valid_submission_output (fns : List String)
    (predict : List (String × PyNum) → Except String (ℤ × ℚ))
    (d : List (String × JVal)) (m : List (String × PyNum)) (p : ℚ)
    (hval : validateFields (.obj d) fns = .ok m) :
    (predict m = .ok (1, p) →
      handleInference fns predict (.obj d) = .success
        { label := "Benign", is_benign := true, confidence := pyRound2 (p * 100),
          description := "Analysis complete: The tumor is likely BENIGN.",
          disclaimer := disclaimerText }) ∧
    (predict m = .ok (0, p) →
      handleInference fns predict (.obj d) = .success
        { label := "Malignant", is_benign := false, confidence := pyRound2 ((1 - p) * 100),
          description := "Analysis complete: The tumor is likely MALIGNANT.",
          disclaimer := disclaimerText }) := by
  constructor <;> intro hp <;> simp [handleInference, hval, hp]

/-- C1 witness: a concrete fully valid submission with the model
returning `(1, 9/10)` yields the Benign success body with confidence
`round(90, 2) = 90`. -/
theorem C1_valid_submission_output_witness :
    handleInference ["a"] (fun _ => .ok (1, 9 / 10)) (.obj [("a", .num 2)]) = .success
      { label := "Benign", is_benign := true, confidence := pyRound2 ((9 / 10 : ℚ) * 100),
        description := "Analysis complete: The tumor is likely BENIGN.",
        disclaimer := disclaimerText } :=
  (C1_valid_submission_output ["a"] (fun _ => .ok (1, 9 / 10)) [("a", .num 2)]
    [("a", PyNum.fin 2)] (9 / 10) (by decide)).1 rfl

/-- C2 counterexample: with required features `["a", "b"]` and the
submission `{a: null}`, the only missing required field is `b`, yet the
400 response is "Invalid numeric data: a" — it does not name the missing
field `b` (not even as a substring), refuting the claim as stated. -/
theorem C2_counterexample :
    ("b" ∈ ["a", "b"] ∧ (List.lookup "b" [("a", JVal.null)]).isNone = true) ∧
    (∀ f ∈ ["a", "b"], (List.lookup f [("a", JVal.null)]).isNone = true → f = "b") ∧
    handleInference ["a", "b"] (fun _ => .ok (1, 1 / 2)) (.obj [("a", JVal.null)]) =
      .validationError "Invalid numeric data: a" ∧
    handleInference ["a", "b"] (fun _ => .ok (1, 1 / 2)) (.obj [("a", JVal.null)]) ≠
      .validationError ("Missing: " ++ "b") ∧
    ¬ List.IsInfix "b".data ("Invalid numeric data: a").data := by
  decide

/-- C2 (amended): for every JSON-object submission missing at least one
required feature, the response is HTTP 400 with a failure message and no
prediction is returned; the message names the missing field whenever
that field is the first required field to fail validation (all required
fields before it being present and valid). -/
theorem C2_missing_field_400 (fns : List String)
    (predict : List (String × PyNum) → Except String (ℤ × ℚ))
    (d : List (String × JVal)) :
    ((∃ f ∈ fns, d.lookup f = none) →
      ∃ msg, handleInference fns predict (.obj d) = .validationError msg ∧
        statusCode (handleInference fns predict (.obj d)) = 400) ∧
    (∀ pre f post, fns = pre ++ f :: post →
      (∀ g ∈ pre, fieldValid d g = true) → d.lookup f = none →
      handleInference fns predict (.obj d) = .validationError ("Missing: " ++ f)) := by
  constructor
  · intro h
    obtain ⟨f, hf, hl⟩ := h
    have hfv : fieldValid d f = false := by unfold fieldValid; rw [hl]
    obtain ⟨msg, hmsg⟩ := validateFields_badRequest_of_invalid ⟨f, hf, hfv⟩
    exact ⟨msg, by simp [handleInference, hmsg], by simp [handleInference, hmsg, statusCode]⟩
  · intro pre f post hfns hpre hl
    subst hfns
    have h1 : validateFields (.obj d) (f :: post) = .badRequest ("Missing: " ++ f) :=
      validateFields_cons_missing hl post
    have h2 := validateFields_append_valid_badRequest hpre h1
    simp [handleInference, h2]

/-- C2 witness: with required features `["a", "b"]` and submission
`{a: 2}`, field `a` validates and `b` is the first failing field, so the
response is exactly `400 "Missing: b"`. -/
theorem C2_missing_field_400_witness :
    (∃ msg, handleInference ["a", "b"] (fun _ => .ok (1, 1 / 2)) (.obj [("a", .num 2)]) =
        .validationError msg ∧
      statusCode (handleInference ["a", "b"] (fun _ => .ok (1, 1 / 2))
        (.obj [("a", .num 2)])) = 400) ∧
    handleInference ["a", "b"] (fun _ => .ok (1, 1 / 2)) (.obj [("a", .num 2)]) =
      .validationError ("Missing: " ++ "b") :=
  ⟨(C2_missing_field_400 ["a", "b"] (fun _ => .ok (1, 1 / 2)) [("a", .num 2)]).1
      ⟨"b", by decide, rfl⟩,
   (C2_missing_field_400 ["a", "b"] (fun _ => .ok (1, 1 / 2)) [("a", .num 2)]).2
      ["a"] "b" [] rfl (by decide) rfl⟩

/-- C3 counterexample: with required features `["a", "b"]` and the
submission `{b: null}`, field `b` is present with a value not
convertible to a float, yet the 400 response is "Missing: a" — it does
not name `b`, refuting the claim as stated. -/
theorem C3_counterexample :
    ((List.lookup "b" [("b", JVal.null)]).isSome = true ∧
      itemAsFloat (.obj [("b", JVal.null)]) "b" = none) ∧
    handleInference ["a", "b"] (fun _ => .ok (1, 1 / 2)) (.obj [("b", JVal.null)]) =
      .validationError "Missing: a" ∧
    handleInference ["a", "b"] (fun _ => .ok (1, 1 / 2)) (.obj [("b", JVal.null)]) ≠
      .validationError ("Invalid numeric data: " ++ "b") ∧
    ¬ List.IsInfix "b".data ("Missing: a").data := by
  decide

/-- C3 (amended): for every JSON-object submission in which some
required feature has a value that is not convertible to a float or is
negative, the response is HTTP 400 with a failure message; the message
names that field whenever it is the first required field to fail
validation (all required fields before it being present and valid). -/
theorem C3_invalid_value_400 (fns : List String)
    (predict : List (String × PyNum) → Except String (ℤ × ℚ))
    (d : List (String × JVal)) :
    ((∃ f ∈ fns, ∃ v, d.lookup f = some v ∧
        (pyFloat v = none ∨ ∃ n, pyFloat v = some n ∧ pyLtZero n = true)) →
      ∃ msg, handleInference fns predict (.obj d) = .validationError msg ∧
        statusCode (handleInference fns predict (.obj d)) = 400) ∧
    (∀ pre f post v, fns = pre ++ f :: post →
      (∀ g ∈ pre, fieldValid d g = true) →
      d.lookup f = some v →
      (pyFloat v = none ∨ ∃ n, pyFloat v = some n ∧ pyLtZero n = true) →
      handleInference fns predict (.obj d) =
        .validationError ("Invalid numeric data: " ++ f)) := by
  constructor
  · intro h
    obtain ⟨f, hf, v, hl, hv⟩ := h
    have hfv : fieldValid d f = false := fieldValid_eq_false_of_invalid hl hv
    obtain ⟨msg, hmsg⟩ := validateFields_badRequest_of_invalid ⟨f, hf, hfv⟩
    exact ⟨msg, by simp [handleInference, hmsg], by simp [handleInference, hmsg, statusCode]⟩
  · intro pre f post v hfns hpre hl hv
    subst hfns
    have h1 : validateFields (.obj d) (f :: post) =
        .badRequest ("Invalid numeric data: " ++ f) := by
      rcases hv with hn | ⟨n, hq, hneg⟩
      · exact validateFields_cons_invalid hl hn post
      · exact validateFields_cons_negative hl hq hneg post
    have h2 := validateFields_append_valid_badRequest hpre h1
    simp [handleInference, h2]

/-- C3 witness: with required features `["a", "b"]` and submission
`{a: 3, b: null}`, field `a` validates and `b` is the first failing
field (its value is not convertible to a float), so the response is
exactly `400 "Invalid numeric data: b"`. -/
theorem C3_invalid_value_400_witness :
    (∃ msg, handleInference ["a", "b"] (fun _ => .ok (1, 1 / 2))
        (.obj [("a", .num 3), ("b", JVal.null)]) = .validationError msg ∧
      statusCode (handleInference ["a", "b"] (fun _ => .ok (1, 1 / 2))
        (.obj [("a", .num 3), ("b", JVal.null)])) = 400) ∧
    handleInference ["a", "b"] (fun _ => .ok (1, 1 / 2))
        (.obj [("a", .num 3), ("b", JVal.null)]) =
      .validationError ("Invalid numeric data: " ++ "b") :=
  ⟨(C3_invalid_value_400 ["a", "b"] (fun _ => .ok (1, 1 / 2))
      [("a", .num 3), ("b", JVal.null)]).1
      ⟨"b", by decide, JVal.null, rfl, Or.inl rfl⟩,
   (C3_invalid_value_400 ["a", "b"] (fun _ => .ok (1, 1 / 2))
      [("a", .num 3), ("b", JVal.null)]).2
      ["a"] "b" [] JVal.null rfl (by decide) rfl (Or.inl rfl)⟩

unseal Rat.mul Rat.inv Rat.add Rat.sub in
/-- C4 counterexample: the submission `{a: "nan"}` passes validation —
`float("nan")` succeeds and `nan < 0` is false — so `predict` receives
the vector `[("a", nan)]`, which violates the claimed `≥ 0` invariant:
the accepted metrics do not satisfy `FeatureVectorInv`, and two model
wrappers that agree on every invariant-satisfying vector produce
different responses on this input, i.e. `predict` is consulted on a
vector outside the invariant. -/
theorem C4_counterexample :
    validateFields (.obj [("a", JVal.str "nan")]) ["a"] = .ok [("a", PyNum.nan)] ∧
    ¬ FeatureVectorInv ["a"] [("a", PyNum.nan)] ∧
    (∀ v, FeatureVectorInv ["a"] v →
      (fun m : List (String × PyNum) =>
        if m.all (fun p => pyGeZero p.2) then
          (Except.ok ((1 : ℤ), (1 : ℚ) / 2) : Except String (ℤ × ℚ))
        else Except.ok ((0 : ℤ), (0 : ℚ))) v =
      (fun _ : List (String × PyNum) =>
        (Except.ok ((1 : ℤ), (1 : ℚ) / 2) : Except String (ℤ × ℚ))) v) ∧
    handleInference ["a"]
        (fun m =>
          if m.all (fun p => pyGeZero p.2) then
            (Except.ok ((1 : ℤ), (1 : ℚ) / 2) : Except String (ℤ × ℚ))
          else Except.ok ((0 : ℤ), (0 : ℚ)))
        (.obj [("a", JVal.str "nan")]) ≠
      handleInference ["a"] (fun _ => Except.ok ((1 : ℤ), (1 : ℚ) / 2))
        (.obj [("a", JVal.str "nan")]) := by
  refine ⟨by decide, ?_, ?_, by decide⟩
  · intro h
    have h2 := h.2 ("a", PyNum.nan) (by simp)
    simp [pyGeZero] at h2
  · intro v hv
    have hall : v.all (fun p => pyGeZero p.2) = true :=
      List.all_eq_true.2 (fun p hp => hv.2 p hp)
    simp [hall]

/-- C4 (amended): whatever vector the `/predict` handler passes to the
model wrapper contains every required feature name, and every value in
it passed the `val < 0` check — it is non-negative in Python's
comparison sense, which admits NaN (e.g. from the submitted string
"nan") besides numbers ≥ 0 and `+inf`; the spec's strict `≥ 0` invariant
fails exactly on such NaN values.  Stated as: (1) any metrics the
validation loop accepts satisfy the not-negative invariant, and (2) the
handler is insensitive to changing `predict` anywhere outside vectors
satisfying it, i.e. `predict` is only ever consulted on such vectors. -/
theorem C4_predict_receives_not_negative (fns : List String)
    (predict pred2 : List (String × PyNum) → Except String (ℤ × ℚ)) (body : JVal) :
    (∀ m, validateFields body fns = .ok m → FeatureVectorNotNeg fns m) ∧
    ((∀ v, FeatureVectorNotNeg fns v → predict v = pred2 v) →
      handleInference fns predict body = handleInference fns pred2 body) := by
  constructor
  · exact fun m hm => validateFields_ok_notNeg hm
  · intro hagree
    unfold handleInference
    cases hv : validateFields body fns with
    | exc e => rfl
    | badRequest msg => rfl
    | ok m =>
      dsimp only
      rw [hagree m (validateFields_ok_notNeg hv)]

/-- C4 witness: concretely accepted metrics satisfy the not-negative
invariant, and two model wrappers that differ only on the empty vector
(which violates it for required features `["a"]`) produce the same
concrete response. -/
theorem C4_predict_receives_not_negative_witness :
    FeatureVectorNotNeg ["a"] [("a", PyNum.fin 2)] ∧
    handleInference ["a"]
        (fun m => if m.isEmpty then .ok (0, 0) else .ok (1, 9 / 10))
        (.obj [("a", .num 2)]) =
      handleInference ["a"] (fun _ => .ok (1, 9 / 10)) (.obj [("a", .num 2)]) :=
  ⟨(C4_predict_receives_not_negative ["a"]
      (fun m => if m.isEmpty then .ok (0, 0) else .ok (1, 9 / 10))
      (fun _ => .ok (1, 9 / 10)) (.obj [("a", .num 2)])).1
      [("a", PyNum.fin 2)] (by decide),
   (C4_predict_receives_not_negative ["a"]
      (fun m => if m.isEmpty then .ok (0, 0) else .ok (1, 9 / 10))
      (fun _ => .ok (1, 9 / 10)) (.obj [("a", .num 2)])).2
    (fun v hv => by
      cases v with
      | nil => exact absurd (hv.1 "a" (by simp)) (by simp [List.lookup])
      | cons p rest => rfl)⟩

/-- C5: if the model wrapper only returns probabilities in `[0, 1]`,
then the confidence of every successful `/predict` response lies in
`[0, 100]`. -/
theorem C5_confidence_in_range (fns : List String)
    (predict : List (String × PyNum) → Except String (ℤ × ℚ))
    (body : JVal) (out : SuccessOutput)
    (hp : ∀ m c p, predict m = .ok (c, p) → 0 ≤ p ∧ p ≤ 1)
    (h : handleInference fns predict body = .success out) :
    0 ≤ out.confidence ∧ out.confidence ≤ 100 := by
  unfold handleInference at h
  cases hv : validateFields body fns with
  | exc e => rw [hv] at h; cases h
  | badRequest msg => rw [hv] at h; cases h
  | ok m =>
    rw [hv] at h
    dsimp only at h
    cases hpr : predict m with
    | error e => rw [hpr] at h; cases h
    | ok cp =>
      obtain ⟨c, p⟩ := cp
      rw [hpr] at h
      dsimp only at h
      obtain ⟨h0, h1⟩ := hp m c p hpr
      cases h
      have hsc0 : (0 : ℚ) ≤ if (c == 1 : Bool) then p else 1 - p := by
        split
        · exact h0
        · linarith
      have hsc1 : (if (c == 1 : Bool) then p else 1 - p) ≤ 1 := by
        split
        · exact h1
        · linarith
      have hb := pyRound2_bounds (y := (if (c == 1 : Bool) then p else 1 - p) * 100)
        (by nlinarith) (by nlinarith)
      simpa using hb

unseal Rat.mul Rat.inv Rat.add Rat.sub in
/-- C5 witness: at a concrete valid submission with the model returning
probability `9/10`, the confidence of the success response is within
`[0, 100]`. -/
theorem C5_confidence_in_range_witness :
    0 ≤ pyRound2 ((9 / 10 : ℚ) * 100) ∧ pyRound2 ((9 / 10 : ℚ) * 100) ≤ 100 :=
  C5_confidence_in_range ["a"] (fun _ => .ok (1, 9 / 10)) (.obj [("a", .num 2)])
    { label := "Benign", is_benign := true, confidence := pyRound2 ((9 / 10 : ℚ) * 100),
      description := "Analysis complete: The tumor is likely BENIGN.",
      disclaimer := disclaimerText }
    (fun m c p h => by
      cases h
      constructor <;> norm_num)
    (by decide)

/-- C8: any uncaught exception in the `/predict` handler — an exception
raised by the membership test during validation, or one raised by the
model wrapper after validation — yields the HTTP 500 response carrying
the exception text, and never a success body. -/
theorem C8_unhandled_exception_500 (fns : List String)
    (predict : List (String × PyNum) → Except String (ℤ × ℚ))
    (body : JVal) (e : String) (m : List (String × PyNum)) :
    (validateFields body fns = .exc e →
      handleInference fns predict body = .serverError e ∧
      statusCode (handleInference fns predict body) = 500) ∧
    (validateFields body fns = .ok m → predict m = .error e →
      handleInference fns predict body = .serverError e ∧
      statusCode (handleInference fns predict body) = 500) := by
  constructor
  · intro h
    constructor <;> simp [handleInference, h, statusCode]
  · intro h hp
    constructor <;> simp [handleInference, h, hp, statusCode]

/-- C8 witness: a `None` body makes the membership test raise, giving a
500 with the exception text; a valid submission whose model wrapper
raises gives a 500 with the model error text. -/
theorem C8_unhandled_exception_500_witness :
    (handleInference ["a"] (fun _ => .error "model failure") JVal.null =
        .serverError "argument of type NoneType is not iterable" ∧
      statusCode (handleInference ["a"] (fun _ => .error "model failure") JVal.null) = 500) ∧
    (handleInference ["a"] (fun _ => .error "model failure") (.obj [("a", .num 2)]) =
        .serverError "model failure" ∧
      statusCode (handleInference ["a"] (fun _ => .error "model failure")
        (.obj [("a", .num 2)])) = 500) :=
  ⟨(C8_unhandled_exception_500 ["a"] (fun _ => .error "model failure") JVal.null
      "argument of type NoneType is not iterable" []).1 (by decide),
   (C8_unhandled_exception_500 ["a"] (fun _ => .error "model failure") (.obj [("a", .num 2)])
      "model failure" [("a", PyNum.fin 2)]).2 (by decide) rfl⟩

theorem sampleOne_ok_mem {rows : List Row} {i : ℕ} {r : Row}
    (h : sampleOne rows i = .ok r) : r ∈ rows := by
  unfold sampleOne at h
  split at h
  · cases h
  · cases h
    exact List.get_mem _ _ _

theorem mem_rowsWithDiagnosis {ds : List Row} {q : ℚ} {r : Row}
    (h : r ∈ rowsWithDiagnosis ds q) :
    r ∈ ds ∧ r.lookup "diagnosis" = some q := by
  have h2 := List.mem_filter.1 h
  refine ⟨h2.1, ?_⟩
  have := h2.2
  simpa using this

theorem lookup_dropDiagnosis (r : Row) :
    (dropDiagnosis r).lookup "diagnosis" = none := by
  induction r with
  | nil => rfl
  | cons p t ih =>
    obtain ⟨k, v⟩ := p
    by_cases hk : k = "diagnosis"
    · subst hk
      simpa [dropDiagnosis, List.filter] using ih
    · have hk2 : ("diagnosis" == k) = false := by
        simpa using fun h => hk h.symm
      simpa [dropDiagnosis, List.filter, hk, List.lookup, hk2] using ih

/-- C6: every successful `/fetch-samples` response consists of exactly
one benign case and one malignant case — each obtained by stripping the
`diagnosis` column from some dataset row whose `diagnosis` equals 1
(benign) resp. 0 (malignant) — and neither returned mapping contains the
`diagnosis` key. -/
theorem C6_sample_cases (ds : List Row) (i j : ℕ) (b m : Row)
    (h : provideExampleCases (.ok ds) i j = .success b m) :
    (∃ r ∈ ds, r.lookup "diagnosis" = some 1 ∧ b = dropDiagnosis r) ∧
    (∃ r ∈ ds, r.lookup "diagnosis" = some 0 ∧ m = dropDiagnosis r) ∧
    b.lookup "diagnosis" = none ∧ m.lookup "diagnosis" = none := by
  unfold provideExampleCases at h
  dsimp only at h
  cases hb : sampleOne (rowsWithDiagnosis ds 1) i with
  | error e => rw [hb] at h; cases h
  | ok rb =>
    rw [hb] at h
    dsimp only at h
    cases hm : sampleOne (rowsWithDiagnosis ds 0) j with
    | error e => rw [hm] at h; cases h
    | ok rm =>
      rw [hm] at h
      cases h
      obtain ⟨hb1, hb2⟩ := mem_rowsWithDiagnosis (sampleOne_ok_mem hb)
      obtain ⟨hm1, hm2⟩ := mem_rowsWithDiagnosis (sampleOne_ok_mem hm)
      exact ⟨⟨rb, hb1, hb2, rfl⟩, ⟨rm, hm1, hm2, rfl⟩,
        lookup_dropDiagnosis rb, lookup_dropDiagnosis rm⟩

/-- C6 witness: on a concrete two-row dataset, the success response is
built from the benign and malignant rows with the `diagnosis` column
stripped. -/
theorem C6_sample_cases_witness :
    (∃ r ∈ [[("diagnosis", (1 : ℚ)), ("x", 5)], [("diagnosis", 0), ("y", 7)]],
      List.lookup "diagnosis" r = some 1 ∧ [("x", (5 : ℚ))] = dropDiagnosis r) ∧
    (∃ r ∈ [[("diagnosis", (1 : ℚ)), ("x", 5)], [("diagnosis", 0), ("y", 7)]],
      List.lookup "diagnosis" r = some 0 ∧ [("y", (7 : ℚ))] = dropDiagnosis r) ∧
    List.lookup "diagnosis" [("x", (5 : ℚ))] = none ∧
    List.lookup "diagnosis" [("y", (7 : ℚ))] = none :=
  C6_sample_cases [[("diagnosis", 1), ("x", 5)], [("diagnosis", 0), ("y", 7)]] 0 0
    [("x", 5)] [("y", 7)] (by decide)

/-- C7: when reading the dataset fails, `/fetch-samples` returns the
structured failure body carrying that error text; when a class subset is
empty (so sampling raises), it returns a structured failure body — in
neither case does the handler propagate the exception, and the response
is produced by the single evaluation of the handler (no retry). -/
theorem C7_sample_failure (readData : Except String (List Row)) (i j : ℕ) :
    (∀ e, readData = .error e → provideExampleCases readData i j = .failure e) ∧
    (∀ ds, readData = .ok ds →
      rowsWithDiagnosis ds 1 = [] ∨ rowsWithDiagnosis ds 0 = [] →
      ∃ msg, provideExampleCases readData i j = .failure msg) := by
  constructor
  · intro e he
    subst he
    rfl
  · intro ds hds hempty
    subst hds
    unfold provideExampleCases
    dsimp only
    rcases hempty with h1 | h0
    · rw [h1]
      exact ⟨"Cannot take a larger sample than population", by simp [sampleOne]⟩
    · cases hb : sampleOne (rowsWithDiagnosis ds 1) i with
      | error e => exact ⟨e, rfl⟩
      | ok rb =>
        dsimp only
        rw [h0]
        exact ⟨"Cannot take a larger sample than population", by simp [sampleOne]⟩

/-- C7 witness: a failed dataset read surfaces its error text, and an
empty dataset (both class subsets empty) yields a structured failure. -/
theorem C7_sample_failure_witness :
    provideExampleCases (.error "No such file or directory") 0 0 =
      .failure "No such file or directory" ∧
    (∃ msg, provideExampleCases (.ok ([] : List Row)) 0 0 = .failure msg) :=
  ⟨(C7_sample_failure (.error "No such file or directory") 0 0).1
      "No such file or directory" rfl,
   (C7_sample_failure (.ok ([] : List Row)) 0 0).2 [] rfl (Or.inl rfl)⟩

/-- C9 counterexample: the claim says any non-object JSON body makes the
membership test raise and so yields a 500, but a JSON string body (and a
JSON array body) does not raise — Python `in` is a substring resp.
element test there — and the request instead fails field validation with
a 400. -/
theorem C9_counterexample :
    handleInference ["a"] (fun _ => .ok (1, 1 / 2)) (.str "x") =
      .validationError "Missing: a" ∧
    statusCode (handleInference ["a"] (fun _ => .ok (1, 1 / 2)) (.str "x")) = 400 ∧
    handleInference ["a"] (fun _ => .ok (1, 1 / 2)) (.arr [.str "q"]) =
      .validationError "Missing: a" ∧
    statusCode (handleInference ["a"] (fun _ => .ok (1, 1 / 2)) (.arr [.str "q"])) = 400 := by
  decide

/-- C9 (amended): if the request body is a JSON null, number or boolean,
the membership test on it raises `TypeError` and the response is the
generic HTTP 500 server error, not a 400 validation error (JSON strings
and arrays, by contrast, support the membership test and proceed to
field validation). -/
theorem C9_non_iterable_body_500 (f : String) (rest : List String)
    (predict : List (String × PyNum) → Except String (ℤ × ℚ)) :
    (∃ e, handleInference (f :: rest) predict .null = .serverError e ∧
      statusCode (handleInference (f :: rest) predict .null) = 500) ∧
    (∀ q : ℚ, ∃ e, handleInference (f :: rest) predict (.num q) = .serverError e ∧
      statusCode (handleInference (f :: rest) predict (.num q)) = 500) ∧
    (∀ b : Bool, ∃ e, handleInference (f :: rest) predict (.bool b) = .serverError e ∧
      statusCode (handleInference (f :: rest) predict (.bool b)) = 500) := by
  refine ⟨⟨"argument of type NoneType is not iterable", ?_, ?_⟩,
      fun q => ⟨"argument of type float is not iterable", ?_, ?_⟩,
      fun b => ⟨"argument of type bool is not iterable", ?_, ?_⟩⟩ <;>
    simp [handleInference, validateFields, pyContains, statusCode]

/-- C9 witness: a JSON null body with one required feature yields a 500
server error. -/
theorem C9_non_iterable_body_500_witness :
    ∃ e, handleInference ["a"] (fun _ => .ok (1, 1 / 2)) .null = .serverError e ∧
      statusCode (handleInference ["a"] (fun _ => .ok (1, 1 / 2)) .null) = 500 :=
  (C9_non_iterable_body_500 "a" [] (fun _ => .ok (1, 1 / 2))).1

/-- C10: the `/predict` handler validates fields in the order of the
required feature-name list and its 400 response is decided by the first
failing field alone (trailing required fields are irrelevant); the
accepted metrics carry exactly the required feature names in order, so
submitted keys outside the required set never reach the model wrapper
— changing `predict` outside vectors with exactly the required keys
leaves the handler's response unchanged. -/
theorem C10_first_failure_exact_keys (fns : List String) (d : List (String × JVal))
    (predict pred2 : List (String × PyNum) → Except String (ℤ × ℚ)) :
    (∀ m, validateFields (.obj d) fns = .ok m → m.map Prod.fst = fns) ∧
    (∀ pre f post, fns = pre ++ f :: post →
      (∀ g ∈ pre, fieldValid d g = true) → fieldValid d f = false →
      validateFields (.obj d) fns = validateFields (.obj d) (pre ++ [f]) ∧
      ∃ msg, validateFields (.obj d) fns = .badRequest msg) ∧
    ((∀ v, v.map Prod.fst = fns → predict v = pred2 v) →
      handleInference fns predict (.obj d) = handleInference fns pred2 (.obj d)) := by
  refine ⟨fun m hm => validateFields_ok_keys hm, ?_, ?_⟩
  · intro pre f post hfns hpre hf
    have hhead : ∃ msg, ∀ rest, validateFields (.obj d) (f :: rest) = .badRequest msg := by
      cases hl : d.lookup f with
      | none => exact ⟨_, fun rest => validateFields_cons_missing hl rest⟩
      | some v =>
        cases hv : pyFloat v with
        | none => exact ⟨_, fun rest => validateFields_cons_invalid hl hv rest⟩
        | some n =>
          have hneg : pyLtZero n = true := by
            by_contra hge
            simp only [Bool.not_eq_true] at hge
            rw [fieldValid_eq_true_iff.2 ⟨v, n, hl, hv, hge⟩] at hf
            cases hf
          exact ⟨_, fun rest => validateFields_cons_negative hl hv hneg rest⟩
    obtain ⟨msg, hmsg⟩ := hhead
    subst hfns
    have hall := validateFields_append_valid_badRequest hpre (hmsg post)
    have hone := validateFields_append_valid_badRequest hpre (hmsg [])
    exact ⟨hall.trans hone.symm, msg, hall⟩
  · intro hagree
    unfold handleInference
    cases hv : validateFields (.obj d) fns with
    | exc e => rfl
    | badRequest msg => rfl
    | ok m =>
      dsimp only
      rw [hagree m (validateFields_ok_keys hv)]

/-- C10 witness: the validated metrics for a submission with an extra
key `z` carry exactly the required names; with `b` missing, the 400
outcome over `["a", "b"]` equals the outcome over just `["a", "b"]`
truncated at the first failure; and a model wrapper changed off the
exact-key vectors gives the same response. -/
theorem C10_first_failure_exact_keys_witness :
    List.map Prod.fst [("a", PyNum.fin 1)] = ["a"] ∧
    (validateFields (.obj [("a", JVal.num 1)]) ["a", "b"] =
        validateFields (.obj [("a", JVal.num 1)]) (["a"] ++ ["b"]) ∧
      ∃ msg, validateFields (.obj [("a", JVal.num 1)]) ["a", "b"] = .badRequest msg) ∧
    handleInference ["a"]
        (fun m => if m.isEmpty then .ok (0, 0) else .ok (1, 1 / 2))
        (.obj [("a", JVal.num 1), ("z", JVal.num 9)]) =
      handleInference ["a"] (fun _ => .ok (1, 1 / 2))
        (.obj [("a", JVal.num 1), ("z", JVal.num 9)]) :=
  ⟨(C10_first_failure_exact_keys ["a"] [("a", JVal.num 1), ("z", JVal.num 9)]
      (fun _ => .ok (1, 1 / 2)) (fun _ => .ok (1, 1 / 2))).1 [("a", PyNum.fin 1)] (by decide),
   (C10_first_failure_exact_keys ["a", "b"] [("a", JVal.num 1)]
      (fun _ => .ok (1, 1 / 2)) (fun _ => .ok (1, 1 / 2))).2.1 ["a"] "b" [] rfl
      (by decide) (by decide),
   (C10_first_failure_exact_keys ["a"] [("a", JVal.num 1), ("z", JVal.num 9)]
      (fun m => if m.isEmpty then .ok (0, 0) else .ok (1, 1 / 2))
      (fun _ => .ok (1, 1 / 2))).2.2
     (fun v hv => by
       cases v with
       | nil => cases hv
       | cons p rest => rfl)⟩

end BreastCancerApp
